import Mathlib

/-!
Shallow embedding of the CampusMapOptimisation frontend (TypeScript/React).

The embedded code:
* `LocationProvider` (`contexts/LocationContext`): the location sampler with
  `startTracking`, `stopTracking`, `successCallback`, `errorCallback`.
* `handleRouteSubmit` (`app/page.tsx`): route submission with HTTP-status check.
* `handleRouteCalculation`, `handleMapClick` (the second `Home` component):
  route submission without an HTTP-status check, and map-click endpoint placement.
* `RouteForm` / `LocationSelector`: swap, selector exclusion, current-location flag.

Numbers are modelled as `ℚ`, JavaScript `null`/`undefined` as `Option.none`,
and each React event handler as a pure transition on an explicit state record.
-/

namespace CampusMap

/-- A latitude/longitude pair (`Coordinate` in `app/types/route`). -/
structure Coordinate where
  lat : ℚ
  lng : ℚ
deriving DecidableEq, Repr

/-- Route payload carried by the backend success envelope
(`start`, `end`, `path_coordinates`, `total_distance`, `estimated_time_minutes`). -/
structure RouteData where
  start : Coordinate
  «end» : Coordinate
  path_coordinates : List Coordinate
  total_distance : ℚ
  estimated_time_minutes : ℚ
deriving DecidableEq, Repr

/-! Section: Location sampler (`contexts/LocationContext.tsx`) -/

/-- The `coords` object of a platform `GeolocationPosition`; `heading` and
`speed` are `number | null` in the platform API, modelled as `Option ℚ`. -/
structure GeolocationCoordinates where
  latitude : ℚ
  longitude : ℚ
  accuracy : ℚ
  heading : Option ℚ
  speed : Option ℚ
deriving DecidableEq, Repr

/-- A platform `GeolocationPosition`: coordinates plus a timestamp. -/
structure GeolocationPosition where
  coords : GeolocationCoordinates
  timestamp : Int
deriving DecidableEq, Repr

/-- The `LocationData` record built by `successCallback`. -/
structure LocationData where
  latitude : ℚ
  longitude : ℚ
  accuracy : ℚ
  heading : Option ℚ
  speed : Option ℚ
  timestamp : Int
deriving DecidableEq, Repr

/-- JavaScript `value || undefined` on a `number | null` value: `null`, and the
falsy number `0`, become `undefined`; every other number is kept. -/
def jsNumberOrUndefined : Option ℚ → Option ℚ
  | none => none
  | some x => if x = 0 then none else some x

/-- The three `GeolocationPositionError` codes handled by `errorCallback`. -/
inductive GeoErrorCode where
  | permissionDenied
  | positionUnavailable
  | timeout
deriving DecidableEq, Repr

/-- The human-readable message chosen by the `switch` in `errorCallback`. -/
def errorMessageFor : GeoErrorCode → String
  | .permissionDenied => "Location access denied by user"
  | .positionUnavailable => "Location information unavailable"
  | .timeout => "Location request timed out"

/-- State of the `LocationProvider` component together with the platform side
of `navigator.geolocation`: `activeWatches` is the list of currently registered
`watchPosition` subscriptions and `nextWatchId` the platform's id counter. -/
structure LocationProviderState where
  currentLocation : Option LocationData
  isTracking : Bool
  error : Option String
  hasLocationPermission : Bool
  watchId : Option Nat
  activeWatches : List Nat
  nextWatchId : Nat
deriving DecidableEq, Repr

/-- The provider's initial state (all `useState` initial values), with no
platform watch registered. -/
def initialProviderState : LocationProviderState :=
  { currentLocation := none
    isTracking := false
    error := none
    hasLocationPermission := false
    watchId := none
    activeWatches := []
    nextWatchId := 0 }

/-- `startTracking`: if geolocation is unsupported, only an error message is
set; otherwise the error is cleared, the state becomes tracking, and a fresh
`watchPosition` subscription is registered and stored in `watchId`. -/
def startTracking (geolocationSupported : Bool) (s : LocationProviderState) :
    LocationProviderState :=
  if geolocationSupported = false then
    { s with error := some "Geolocation is not supported by this browser" }
  else
    { s with
      error := none
      isTracking := true
      watchId := some s.nextWatchId
      activeWatches := s.activeWatches ++ [s.nextWatchId]
      nextWatchId := s.nextWatchId + 1 }

/-- `successCallback`: builds a `LocationData` from the delivered position
(`heading`/`speed` through `|| undefined`), stores it as the current location,
marks permission granted and clears the error. -/
def successCallback (position : GeolocationPosition) (s : LocationProviderState) :
    LocationProviderState :=
  { s with
    currentLocation := some
      { latitude := position.coords.latitude
        longitude := position.coords.longitude
        accuracy := position.coords.accuracy
        heading := jsNumberOrUndefined position.coords.heading
        speed := jsNumberOrUndefined position.coords.speed
        timestamp := position.timestamp }
    hasLocationPermission := true
    error := none }

/-- `errorCallback`: records the human-readable message, leaves tracking
(`setIsTracking(false)`) and drops the advisory permission flag. It does not
touch `watchId` nor the platform watch registrations. -/
def errorCallback (code : GeoErrorCode) (s : LocationProviderState) :
    LocationProviderState :=
  { s with
    error := some (errorMessageFor code)
    isTracking := false
    hasLocationPermission := false }

/-- `stopTracking`: clears the platform watch if one is stored, forgets the
stored id and leaves tracking. -/
def stopTracking (s : LocationProviderState) : LocationProviderState :=
  match s.watchId with
  | some id =>
    { s with
      activeWatches := s.activeWatches.erase id
      watchId := none
      isTracking := false }
  | none => { s with isTracking := false }

/-! Section: Backend responses and the two route handlers -/

/-- The parse outcome of a response body: `invalid` when `response.json()`
throws, otherwise the `{ success, error?, route? }` envelope. -/
inductive ResponseBody where
  | invalid
  | envelope (success : Bool) (error : Option String) (route : Option RouteData)
deriving DecidableEq, Repr

/-- An HTTP response: `ok` is `response.ok` (status in the 2xx range),
`status` the numeric status code, `body` the parse outcome of the body. -/
structure HttpResponse where
  ok : Bool
  status : Nat
  body : ResponseBody
deriving DecidableEq, Repr

/-- Occurrence of `sub` as a contiguous run inside `s` (both as char lists),
the semantics of JavaScript `String.prototype.includes`. -/
def containsSeq (sub : List Char) : List Char → Bool
  | [] => sub.isEmpty
  | c :: t => sub.isPrefixOf (c :: t) || containsSeq sub t

/-- JavaScript `s.includes(sub)`. -/
def jsIncludes (s sub : String) : Bool :=
  containsSeq sub.toList s.toList

/-- JavaScript `value || fallback` on a `string | undefined` value: both
`undefined` and the falsy empty string select the fallback. -/
def jsStringOr (v : Option String) (fallback : String) : String :=
  match v with
  | none => fallback
  | some s => if s = "" then fallback else s

/-- The transport-failure message of `handleRouteSubmit`. -/
def cannotConnectMsg : String :=
  "Cannot connect to the server. Please ensure the backend is running."

/-- The generic-`Error` branch of the `catch` in `handleRouteSubmit`:
a thrown message containing `Failed to fetch` is replaced by the
cannot-connect message, any other thrown message is shown as is. -/
def classifyThrownMessage (msg : String) : String :=
  if jsIncludes msg "Failed to fetch" then cannotConnectMsg else msg

/-- The slice of the `Home` state of `app/page.tsx` that `handleRouteSubmit`
reads and writes: the stored route and the displayed error. -/
structure SubmitState where
  routeData : Option RouteData
  error : Option String
deriving DecidableEq, Repr

/-- `handleRouteSubmit` of `app/page.tsx` on a resolved exchange:
`none` models a fetch that throws (transport failure). The handler first
clears the error; a non-2xx response throws `HTTP error! status: N` which its
own `catch` converts to a displayed message; an unparseable body surfaces the
invalid-response message; a non-success envelope throws
`data.error || 'Failed to calculate route'` — the fallback also when the
server message is the falsy empty string — likewise caught; only a success
envelope carrying a route stores it. The stored route is never cleared on
failure. -/
def handleRouteSubmit (resp : Option HttpResponse) (s : SubmitState) : SubmitState :=
  let s0 : SubmitState := { s with error := none }
  match resp with
  | none => { s0 with error := some cannotConnectMsg }
  | some r =>
    if r.ok = false then
      let msg := classifyThrownMessage ("HTTP error! status: " ++ toString r.status)
      { s0 with error := some msg }
    else
      match r.body with
      | .invalid =>
        { s0 with error := some "Invalid response from server. Please try again." }
      | .envelope success err route =>
        if success = true then
          match route with
          | some rt => { s0 with routeData := some rt }
          | none =>
            let msg := classifyThrownMessage (jsStringOr err "Failed to calculate route")
            { s0 with error := some msg }
        else
          let msg := classifyThrownMessage (jsStringOr err "Failed to calculate route")
          { s0 with error := some msg }

/-! Section: The `Home` component of the first file of `part_001` -/

/-- The `selectedLocation` flag: which endpoint is pending map placement. -/
inductive EndpointSel where
  | start
  | «end»
deriving DecidableEq, Repr

/-- The `coordinates` state object of this `Home` component. -/
structure HomeCoordinates where
  startLat : ℚ
  startLng : ℚ
  endLat : ℚ
  endLng : ℚ
deriving DecidableEq, Repr

/-- The slice of this `Home` component's state touched by
`handleRouteCalculation` and `handleMapClick`. -/
structure HomeState where
  route : Option RouteData
  loading : Bool
  error : Option String
  selectedLocation : Option EndpointSel
  coordinates : HomeCoordinates
deriving DecidableEq, Repr

/-- The transport-failure message of `handleRouteCalculation`. -/
def failedConnectMsg : String :=
  "Failed to connect to the API. Please check if the backend server is running."

/-- `handleRouteCalculation`: clears error and route, stores the submitted
coordinates, then classifies the exchange by the parsed body alone —
`response.ok` and `response.status` are never consulted. A body parse failure
lands in the `catch` with the connect message; a `success: true` envelope
stores `data.route` (even when that field is absent); anything else records
`data.error || 'Failed to calculate route'`, the fallback also when the
server message is the falsy empty string. `loading` is `false` again after
the `finally`. -/
def handleRouteCalculation (coords : HomeCoordinates) (resp : Option HttpResponse)
    (s : HomeState) : HomeState :=
  let s0 : HomeState :=
    { s with loading := false, error := none, route := none, coordinates := coords }
  match resp with
  | none => { s0 with error := some failedConnectMsg }
  | some r =>
    match r.body with
    | .invalid => { s0 with error := some failedConnectMsg }
    | .envelope success err route =>
      if success = true then
        { s0 with route := route }
      else
        { s0 with error := some (jsStringOr err "Failed to calculate route") }

/-- `handleMapClick`: place the pending endpoint (if any) at the clicked
point, then always reset the pending-endpoint flag. -/
def handleMapClick (lat lng : ℚ) (s : HomeState) : HomeState :=
  match s.selectedLocation with
  | some .start =>
    { s with
      coordinates := { s.coordinates with startLat := lat, startLng := lng }
      selectedLocation := none }
  | some .«end» =>
    { s with
      coordinates := { s.coordinates with endLat := lat, endLng := lng }
      selectedLocation := none }
  | none => { s with selectedLocation := none }

/-! Section: `RouteForm` and `LocationSelector` -/

/-- A catalog entry (`Location` in `app/types/location`). -/
structure Location where
  id : String
  name : String
  lat : ℚ
  lng : ℚ
  category : String
  description : String
deriving DecidableEq, Repr

/-- The form's coordinate fields (`RouteFormData`). -/
structure RouteFormData where
  startLat : ℚ
  startLng : ℚ
  endLat : ℚ
  endLng : ℚ
deriving DecidableEq, Repr

/-- The `RouteForm` component state together with its `loading` prop. -/
structure RouteFormState where
  formData : RouteFormData
  selectedStartLocation : Option Location
  selectedEndLocation : Option Location
  loading : Bool
deriving DecidableEq, Repr

/-- `swapLocations`: exchange the four coordinate fields and the two selected
locations in one state update. -/
def swapLocations (s : RouteFormState) : RouteFormState :=
  { s with
    formData :=
      { startLat := s.formData.endLat
        startLng := s.formData.endLng
        endLat := s.formData.startLat
        endLng := s.formData.startLng }
    selectedStartLocation := s.selectedEndLocation
    selectedEndLocation := s.selectedStartLocation }

/-- The `disabled` expression of the swap button:
`loading || !selectedStartLocation || !selectedEndLocation`. -/
def swapDisabled (s : RouteFormState) : Bool :=
  s.loading || s.selectedStartLocation.isNone || s.selectedEndLocation.isNone

/-- The props `RouteForm` hands to a `LocationSelector`. -/
structure LocationSelectorProps where
  allowCurrentLocation : Bool
  excludeLocationId : Option String
deriving DecidableEq, Repr

/-- Props of the start selector: current location allowed, the chosen
destination's id excluded. -/
def startSelectorProps (s : RouteFormState) : LocationSelectorProps :=
  { allowCurrentLocation := true
    excludeLocationId := s.selectedEndLocation.map Location.id }

/-- Props of the destination selector: current location not allowed, the
chosen start's id excluded. -/
def endSelectorProps (s : RouteFormState) : LocationSelectorProps :=
  { allowCurrentLocation := false
    excludeLocationId := s.selectedStartLocation.map Location.id }

/-- The catalog entries a `LocationSelector` offers:
`locationData.locations.filter(location => location.id !== excludeLocationId)`
(a `string !== undefined` comparison keeps every entry). -/
def selectorLocations (catalog : List Location) (props : LocationSelectorProps) :
    List Location :=
  catalog.filter fun location => props.excludeLocationId != some location.id

/-- Whether the `Use Current Location` entry is rendered: the component guards
it solely by the `allowCurrentLocation` prop. -/
def currentLocationOffered (props : LocationSelectorProps) : Bool :=
  props.allowCurrentLocation

/-! Section: Concrete fixtures for counterexamples and witnesses -/

/-- A two-point route as carried by a typical backend success envelope. -/
def route1 : RouteData :=
  { start := { lat := 28, lng := 77 }
    «end» := { lat := 29, lng := 78 }
    path_coordinates := [{ lat := 28, lng := 77 }, { lat := 29, lng := 78 }]
    total_distance := 500
    estimated_time_minutes := 6 }

/-- A degenerate route whose `path_coordinates` is empty. -/
def routeEmpty : RouteData :=
  { start := { lat := 28, lng := 77 }
    «end» := { lat := 29, lng := 78 }
    path_coordinates := []
    total_distance := 0
    estimated_time_minutes := 0 }

/-- An HTTP 500 response whose body nevertheless parses as a success envelope
carrying `route1`. -/
def resp500success : HttpResponse :=
  { ok := false, status := 500, body := .envelope true none (some route1) }

/-- A 200 response whose success envelope carries the empty-path route. -/
def respOkEmptyPath : HttpResponse :=
  { ok := true, status := 200, body := .envelope true none (some routeEmpty) }

/-- Default coordinates of the `Home` component. -/
def homeCoords0 : HomeCoordinates :=
  { startLat := 28, startLng := 77, endLat := 29, endLng := 78 }

/-- A `Home` state with no route and nothing pending. -/
def homeState0 : HomeState :=
  { route := none
    loading := false
    error := none
    selectedLocation := none
    coordinates := homeCoords0 }

/-- A `Home` state still holding a previously computed route. -/
def homeStateWithRoute : HomeState :=
  { homeState0 with route := some routeEmpty }

/-- A position delivered at timestamp 100. -/
def posAt100 : GeolocationPosition :=
  { coords := { latitude := 28, longitude := 77, accuracy := 5, heading := none, speed := none }
    timestamp := 100 }

/-- A position delivered later but carrying the older timestamp 50. -/
def posAt50 : GeolocationPosition :=
  { coords := { latitude := 28, longitude := 77, accuracy := 5, heading := none, speed := none }
    timestamp := 50 }

/-- A position whose platform heading is exactly 0 and whose speed is 5. -/
def posHeadingZero : GeolocationPosition :=
  { coords := { latitude := 28, longitude := 77, accuracy := 5, heading := some 0, speed := some 5 }
    timestamp := 100 }

/-- A position with nonzero heading 90 and speed exactly 0. -/
def posSpeedZero : GeolocationPosition :=
  { coords := { latitude := 28, longitude := 77, accuracy := 5, heading := some 90, speed := some 0 }
    timestamp := 200 }

/-- Two distinct catalog entries. -/
def locLibrary : Location :=
  { id := "library", name := "Library", lat := 28, lng := 77
    category := "Academic", description := "Main library" }

/-- A second catalog entry. -/
def locHostel : Location :=
  { id := "hostel", name := "Hostel", lat := 29, lng := 78
    category := "Accommodation", description := "Student hostel" }

/-- A two-entry catalog. -/
def catalog2 : List Location := [locLibrary, locHostel]

/-- A form state in which both endpoints are selected and no request is in
flight. -/
def formStateBoth : RouteFormState :=
  { formData := { startLat := 28, startLng := 77, endLat := 29, endLng := 78 }
    selectedStartLocation := some locLibrary
    selectedEndLocation := some locHostel
    loading := false }

/-- The initial state of the `Home` component of `app/page.tsx`. -/
def submitState0 : SubmitState := { routeData := none, error := none }

/-- A 200 response carrying a failure envelope with a server message. -/
def respRouteNotFound : HttpResponse :=
  { ok := true, status := 200, body := .envelope false (some "No path found") none }

/-- A 200 response carrying a failure envelope whose server message is the
falsy empty string. -/
def respEmptyError : HttpResponse :=
  { ok := true, status := 200, body := .envelope false (some "") none }

/-- A `Home` state in which the start endpoint is pending map placement. -/
def homeStatePendingStart : HomeState :=
  { homeState0 with selectedLocation := some .start }

/-! Section: Helper lemmas about decimal rendering and substring search -/

/-- No input makes `Nat.digitChar` produce the uppercase letter `F`. -/
theorem digitChar_ne_F (m : Nat) : Nat.digitChar m ≠ 'F' :=
  match m with
  | 0 => by decide
  | 1 => by decide
  | 2 => by decide
  | 3 => by decide
  | 4 => by decide
  | 5 => by decide
  | 6 => by decide
  | 7 => by decide
  | 8 => by decide
  | 9 => by decide
  | 10 => by decide
  | 11 => by decide
  | 12 => by decide
  | 13 => by decide
  | 14 => by decide
  | 15 => by decide
  | n + 16 => by
      have h : Nat.digitChar (n + 16) = '*' := rfl
      rw [h]; decide

/-- `Nat.toDigitsCore` only prepends digit characters, so it never introduces
the letter `F`. -/
theorem toDigitsCore_ne_F (b : Nat) :
    ∀ (fuel n : Nat) (ds : List Char), (∀ c ∈ ds, c ≠ 'F') →
      ∀ c ∈ Nat.toDigitsCore b fuel n ds, c ≠ 'F' := by
  intro fuel
  induction fuel with
  | zero => intro n ds hds; simpa [Nat.toDigitsCore] using hds
  | succ fuel ih =>
    intro n ds hds
    have hcons : ∀ c ∈ Nat.digitChar (n % b) :: ds, c ≠ 'F' := by
      intro c hc
      rcases List.mem_cons.mp hc with rfl | hmem
      · exact digitChar_ne_F (n % b)
      · exact hds c hmem
    simp only [Nat.toDigitsCore]
    split
    · exact hcons
    · exact ih (n / b) (Nat.digitChar (n % b) :: ds) hcons

/-- The decimal rendering of a natural number contains no letter `F`. -/
theorem repr_ne_F (n : Nat) : ∀ c ∈ (Nat.repr n).toList, c ≠ 'F' :=
  toDigitsCore_ne_F 10 (n + 1) n [] (by intro c hc; cases hc)

/-- A pattern starting with a character absent from the searched list never
occurs in it. -/
theorem containsSeq_eq_false_of_head_notMem (a : Char) (rest s : List Char)
    (h : a ∉ s) : containsSeq (a :: rest) s = false := by
  induction s with
  | nil => rfl
  | cons c t ih =>
    have hca : (a == c) = false := by
      simp only [beq_eq_false_iff_ne]
      intro hac
      exact h (by rw [hac]; exact List.mem_cons_self c t)
    have ht : containsSeq (a :: rest) t = false :=
      ih fun hmem => h (List.mem_cons_of_mem c hmem)
    simp [containsSeq, List.isPrefixOf, hca, ht]

/-- The message thrown for a non-2xx status never contains `Failed to fetch`. -/
theorem jsIncludes_httpError_fetch (n : Nat) :
    jsIncludes ("HTTP error! status: " ++ toString n) "Failed to fetch" = false := by
  have hmem : 'F' ∉ ("HTTP error! status: " ++ toString n).toList := by
    intro hF
    rw [show ("HTTP error! status: " ++ toString n).toList =
          "HTTP error! status: ".toList ++ (Nat.repr n).toList from rfl] at hF
    rcases List.mem_append.mp hF with h1 | h2
    · revert h1; decide
    · exact repr_ne_F n 'F' h2 rfl
  exact containsSeq_eq_false_of_head_notMem 'F' _ _ hmem

/-- The catch branch of `handleRouteSubmit` displays the HTTP-status message
unchanged. -/
theorem classifyThrownMessage_httpError (n : Nat) :
    classifyThrownMessage ("HTTP error! status: " ++ toString n) =
      "HTTP error! status: " ++ toString n := by
  unfold classifyThrownMessage
  simp [jsIncludes_httpError_fetch n]

/-! Section: C1: sensor errors while tracking -/

/-- C1 counterexample: after `startTracking` registers watch 0, delivering a
`PermissionDenied` error does not tear the tracking subscription down — the
claim that the watch is cleared and forgotten is false at this input. -/
theorem errorCallback_does_not_tear_down_watch :
    ¬ ((errorCallback GeoErrorCode.permissionDenied
          (startTracking true initialProviderState)).watchId = none ∧
       (errorCallback GeoErrorCode.permissionDenied
          (startTracking true initialProviderState)).activeWatches = []) := by
  decide

/-- C1 (amended): a sensor error delivered while tracking is active moves the
sampler to idle, surfaces the human-readable message for the error code, does
not automatically retry (no watch registration changes), and a subsequent
explicit `startTracking()` is accepted without restriction — but the active
subscription is not torn down: `watchId` and the platform watch list are left
untouched by the error callback. -/
theorem errorCallback_idle_message_no_retry (s : LocationProviderState)
    (code : GeoErrorCode) (hTracking : s.isTracking = true) :
    (errorCallback code s).isTracking = false ∧
    (errorCallback code s).error = some (errorMessageFor code) ∧
    (errorCallback code s).watchId = s.watchId ∧
    (errorCallback code s).activeWatches = s.activeWatches ∧
    (errorCallback code s).nextWatchId = s.nextWatchId ∧
    (startTracking true (errorCallback code s)).isTracking = true ∧
    (startTracking true (errorCallback code s)).error = none := by
  refine ⟨rfl, rfl, rfl, rfl, rfl, ?_, ?_⟩ <;> simp [startTracking, errorCallback]

/-- C1 witness: the amended theorem applied to the tracking state reached by
one `startTracking` call and a `PermissionDenied` error. -/
theorem errorCallback_idle_message_no_retry_witness :
    (errorCallback GeoErrorCode.permissionDenied
        (startTracking true initialProviderState)).isTracking = false ∧
    (errorCallback GeoErrorCode.permissionDenied
        (startTracking true initialProviderState)).error =
      some (errorMessageFor GeoErrorCode.permissionDenied) ∧
    (errorCallback GeoErrorCode.permissionDenied
        (startTracking true initialProviderState)).watchId =
      (startTracking true initialProviderState).watchId ∧
    (errorCallback GeoErrorCode.permissionDenied
        (startTracking true initialProviderState)).activeWatches =
      (startTracking true initialProviderState).activeWatches ∧
    (errorCallback GeoErrorCode.permissionDenied
        (startTracking true initialProviderState)).nextWatchId =
      (startTracking true initialProviderState).nextWatchId ∧
    (startTracking true (errorCallback GeoErrorCode.permissionDenied
        (startTracking true initialProviderState))).isTracking = true ∧
    (startTracking true (errorCallback GeoErrorCode.permissionDenied
        (startTracking true initialProviderState))).error = none :=
  errorCallback_idle_message_no_retry (startTracking true initialProviderState)
    GeoErrorCode.permissionDenied (by decide)

/-! Section: C2: `startTracking` idempotence -/

/-- C2 counterexample: with tracking already active after one `startTracking`
call, a second call is not the claimed no-op that merely confirms the tracking
state and clears the error — it registers a second platform watch. -/
theorem startTracking_second_call_not_noop :
    startTracking true (startTracking true initialProviderState) ≠
      { startTracking true initialProviderState with
          isTracking := true, error := none } := by
  decide

/-- C2 (amended): every `startTracking` call (geolocation supported) clears
any previous error and sets the state to tracking, but it always registers a
fresh `watchPosition` subscription and overwrites `watchId`, so a call while
already tracking adds a second concurrent subscription. -/
theorem startTracking_registers_new_watch (s : LocationProviderState) :
    (startTracking true s).isTracking = true ∧
    (startTracking true s).error = none ∧
    (startTracking true s).watchId = some s.nextWatchId ∧
    (startTracking true s).activeWatches = s.activeWatches ++ [s.nextWatchId] ∧
    (startTracking true s).nextWatchId = s.nextWatchId + 1 := by
  refine ⟨?_, ?_, ?_, ?_, ?_⟩ <;> simp [startTracking]

/-! Section: C6: sample timestamp ordering -/

/-- C6 counterexample: after a sample at timestamp 100 is accepted, a sample
carrying the older timestamp 50 is not rejected — it replaces the retained
sample, whose timestamp becomes 50. -/
theorem successCallback_accepts_stale_timestamp :
    (successCallback posAt50 (successCallback posAt100
        (startTracking true initialProviderState))).currentLocation ≠
      (successCallback posAt100
        (startTracking true initialProviderState)).currentLocation ∧
    ((successCallback posAt50 (successCallback posAt100
        (startTracking true initialProviderState))).currentLocation.map
      LocationData.timestamp) = some 50 := by
  constructor
  · decide
  · decide

/-- C6 (amended): the success callback performs no timestamp comparison:
whatever sample is delivered last becomes the retained latest sample, its
timestamp taken verbatim from the delivery, regardless of ordering. -/
theorem successCallback_latest_sample_wins (s : LocationProviderState)
    (p1 p2 : GeolocationPosition) :
    ((successCallback p2 (successCallback p1 s)).currentLocation.map
      LocationData.timestamp) = some p2.timestamp := by
  simp [successCallback]

/-! Section: C9: zero heading and zero speed become absent -/

/-- C9: the `|| undefined` mapping stores a platform heading of exactly 0 and
a platform speed of exactly 0 as absent, while every nonzero heading or speed
is preserved unchanged. -/
theorem successCallback_zero_heading_speed_absent
    (position : GeolocationPosition) (s : LocationProviderState) :
    (position.coords.heading = some 0 →
      ((successCallback position s).currentLocation.map LocationData.heading) =
        some none) ∧
    (position.coords.speed = some 0 →
      ((successCallback position s).currentLocation.map LocationData.speed) =
        some none) ∧
    (∀ x, position.coords.heading = some x → x ≠ 0 →
      ((successCallback position s).currentLocation.map LocationData.heading) =
        some (some x)) ∧
    (∀ v, position.coords.speed = some v → v ≠ 0 →
      ((successCallback position s).currentLocation.map LocationData.speed) =
        some (some v)) := by
  refine ⟨?_, ?_, ?_, ?_⟩
  · intro hx; simp [successCallback, jsNumberOrUndefined, hx]
  · intro hx; simp [successCallback, jsNumberOrUndefined, hx]
  · intro x hx hx0; simp [successCallback, jsNumberOrUndefined, hx, hx0]
  · intro v hv hv0; simp [successCallback, jsNumberOrUndefined, hv, hv0]

/-- C9 witness: a position with heading 0 and speed 5 stores no heading but
speed 5; a position with heading 90 and speed 0 stores heading 90 and no
speed. -/
theorem successCallback_zero_heading_speed_absent_witness :
    ((successCallback posHeadingZero initialProviderState).currentLocation.map
      LocationData.heading) = some none ∧
    ((successCallback posHeadingZero initialProviderState).currentLocation.map
      LocationData.speed) = some (some 5) ∧
    ((successCallback posSpeedZero initialProviderState).currentLocation.map
      LocationData.speed) = some none ∧
    ((successCallback posSpeedZero initialProviderState).currentLocation.map
      LocationData.heading) = some (some 90) :=
  ⟨(successCallback_zero_heading_speed_absent posHeadingZero
      initialProviderState).1 rfl,
   (successCallback_zero_heading_speed_absent posHeadingZero
      initialProviderState).2.2.2 5 rfl (by norm_num),
   (successCallback_zero_heading_speed_absent posSpeedZero
      initialProviderState).2.1 rfl,
   (successCallback_zero_heading_speed_absent posSpeedZero
      initialProviderState).2.2.1 90 rfl (by norm_num)⟩

/-! Section: C3: classification of backend failures -/

/-- C3 counterexample: `handleRouteCalculation` never consults the HTTP
status, so an HTTP 500 response whose body parses as a success envelope is not
surfaced as any failure at all — the route is stored and no error recorded,
refuting the claim that every non-2xx status yields a ServerError-class
failure regardless of body content. -/
theorem handleRouteCalculation_ignores_http_status :
    (handleRouteCalculation homeCoords0 (some resp500success) homeState0).error
        = none ∧
    (handleRouteCalculation homeCoords0 (some resp500success) homeState0).route
        = some route1 := by
  constructor
  · decide
  · decide

/-- C3 (amended): in `handleRouteSubmit` of `app/page.tsx`, a non-2xx status
is surfaced as the `HTTP error! status: N` failure message regardless of body
content; a parseable failure envelope is surfaced, without escaping the
handler, as the server-supplied message when that message is nonempty and
does not contain `Failed to fetch` — an absent or falsy empty server message
surfaces the fallback `Failed to calculate route` through the same `||` —
and a transport failure is surfaced as the distinct cannot-connect message.
`handleRouteCalculation` classifies by the parsed body alone and gives
non-2xx statuses no such treatment. -/
theorem handleRouteSubmit_failure_classification (s : SubmitState)
    (r : HttpResponse) :
    (r.ok = false →
      handleRouteSubmit (some r) s =
        { s with error := some ("HTTP error! status: " ++ toString r.status) }) ∧
    (∀ m routeField, r.ok = true →
      r.body = ResponseBody.envelope false (some m) routeField →
      m ≠ "" →
      jsIncludes m "Failed to fetch" = false →
      handleRouteSubmit (some r) s = { s with error := some m }) ∧
    (∀ e routeField, r.ok = true →
      r.body = ResponseBody.envelope false e routeField →
      (e = none ∨ e = some "") →
      handleRouteSubmit (some r) s =
        { s with error := some "Failed to calculate route" }) ∧
    handleRouteSubmit none s = { s with error := some cannotConnectMsg } := by
  have hfb : classifyThrownMessage "Failed to calculate route" =
      "Failed to calculate route" := by decide
  refine ⟨?_, ?_, ?_, rfl⟩
  · intro hok
    simp [handleRouteSubmit, hok, classifyThrownMessage_httpError]
  · intro m routeField hok hbody hne hincl
    simp [handleRouteSubmit, hok, hbody, jsStringOr, hne, classifyThrownMessage,
      hincl]
  · intro e routeField hok hbody hfalsy
    rcases hfalsy with rfl | rfl
    · simp [handleRouteSubmit, hok, hbody, jsStringOr, hfb]
    · simp [handleRouteSubmit, hok, hbody, jsStringOr, hfb]

/-- C3 witness: the amended theorem applied to an HTTP 500 response, to a 200
response with a failure envelope carrying `No path found`, to a 200 response
with a failure envelope carrying the empty server message, and to a transport
failure. -/
theorem handleRouteSubmit_failure_classification_witness :
    handleRouteSubmit (some resp500success) submitState0 =
      { submitState0 with
          error := some ("HTTP error! status: " ++ toString (500 : Nat)) } ∧
    handleRouteSubmit (some respRouteNotFound) submitState0 =
      { submitState0 with error := some "No path found" } ∧
    handleRouteSubmit (some respEmptyError) submitState0 =
      { submitState0 with error := some "Failed to calculate route" } ∧
    handleRouteSubmit none submitState0 =
      { submitState0 with error := some cannotConnectMsg } :=
  ⟨(handleRouteSubmit_failure_classification submitState0 resp500success).1 rfl,
   (handleRouteSubmit_failure_classification submitState0 respRouteNotFound).2.1
      "No path found" none rfl rfl (by decide) (by decide),
   (handleRouteSubmit_failure_classification submitState0 respEmptyError).2.2.1
      (some "") none rfl rfl (Or.inr rfl),
   (handleRouteSubmit_failure_classification submitState0 resp500success).2.2.2⟩

/-! Section: C4: stored routes and the four failure kinds -/

/-- C4 counterexample: a 2xx success envelope whose route has an empty
`path_coordinates` is stored as a success with no error, refuting the claim
that a stored route always has at least 2 path coordinates. -/
theorem handleRouteSubmit_stores_empty_path_route :
    (handleRouteSubmit (some respOkEmptyPath) submitState0).routeData =
      some routeEmpty ∧
    routeEmpty.path_coordinates.length = 0 ∧
    (handleRouteSubmit (some respOkEmptyPath) submitState0).error = none := by
  refine ⟨?_, ?_, ?_⟩ <;> decide

/-- C4 (amended): every route submission either stores exactly the route
carried by a 2xx success envelope — with no validation of
`pathCoordinates`, so an empty path can be stored — and clears the error, or
records some failure message and leaves the stored route unchanged; a route is
never stored from anything but a success envelope. -/
theorem handleRouteSubmit_success_only_from_envelope
    (resp : Option HttpResponse) (s : SubmitState) :
    (∃ r e rt, resp = some r ∧ r.ok = true ∧
      r.body = ResponseBody.envelope true e (some rt) ∧
      handleRouteSubmit resp s = { routeData := some rt, error := none }) ∨
    (∃ m, handleRouteSubmit resp s =
      { routeData := s.routeData, error := some m }) := by
  rcases resp with _ | ⟨ok, status, body⟩
  · exact Or.inr ⟨cannotConnectMsg, rfl⟩
  · cases ok
    · exact Or.inr ⟨_, rfl⟩
    · rcases body with _ | ⟨success, err, route⟩
      · exact Or.inr ⟨_, rfl⟩
      · cases success
        · exact Or.inr ⟨_, rfl⟩
        · rcases route with _ | rt
          · exact Or.inr ⟨_, rfl⟩
          · exact Or.inl ⟨_, err, rt, rfl, rfl, rfl, rfl⟩

/-! Section: C5: failed submissions in `handleRouteCalculation` -/

/-- C5 counterexample: an HTTP 500 response whose body parses as a success
envelope is a failed submission per the claim, yet the controller neither
stays without a route nor records an error: it stores the new route (the prior
one is replaced, not kept, and no error is displayed). -/
theorem handleRouteCalculation_keeps_500_success_body :
    (handleRouteCalculation homeCoords0 (some resp500success)
        homeStateWithRoute).route = some route1 ∧
    (handleRouteCalculation homeCoords0 (some resp500success)
        homeStateWithRoute).error = none := by
  constructor
  · decide
  · decide

/-- C5 (amended): for every failed route submission that
`handleRouteCalculation` detects — transport failure, unparseable body, or a
parsed body without `success: true` — the resulting state has no stored route
(the prior RouteResult, if any, was discarded at submission start) and an
error message recorded for display. A non-2xx response with a parseable
success envelope is not detected as a failure, because the HTTP status is
never consulted. -/
theorem handleRouteCalculation_failure_clears_route_records_error
    (coords : HomeCoordinates) (resp : Option HttpResponse) (s : HomeState)
    (h : resp = none ∨
      (∃ r, resp = some r ∧ r.body = ResponseBody.invalid) ∨
      (∃ r e rt, resp = some r ∧ r.body = ResponseBody.envelope false e rt)) :
    (handleRouteCalculation coords resp s).route = none ∧
    ∃ m, (handleRouteCalculation coords resp s).error = some m := by
  rcases h with rfl | ⟨r, rfl, hb⟩ | ⟨r, e, rt, rfl, hb⟩
  · exact ⟨rfl, failedConnectMsg, rfl⟩
  · refine ⟨?_, failedConnectMsg, ?_⟩ <;> simp [handleRouteCalculation, hb]
  · refine ⟨?_, jsStringOr e "Failed to calculate route", ?_⟩ <;>
      simp [handleRouteCalculation, hb]

/-- C5 witness: the amended theorem applied to a transport failure from a
state that still holds a prior route. -/
theorem handleRouteCalculation_failure_clears_route_records_error_witness :
    (handleRouteCalculation homeCoords0 none homeStateWithRoute).route = none ∧
    ∃ m, (handleRouteCalculation homeCoords0 none homeStateWithRoute).error =
      some m :=
  handleRouteCalculation_failure_clears_route_records_error homeCoords0 none
    homeStateWithRoute (Or.inl rfl)

/-! Section: C7: swap is an involution and its gating -/

/-- C7: with both endpoints selected, applying `swapLocations` twice restores
exactly the prior start/end selections and coordinates, and the swap button is
enabled precisely when both endpoints are selected and no request is in
flight. -/
theorem swapLocations_involution_gating (s : RouteFormState) :
    (s.selectedStartLocation.isSome = true →
      s.selectedEndLocation.isSome = true →
      swapLocations (swapLocations s) = s) ∧
    (swapDisabled s = false ↔
      (s.loading = false ∧ s.selectedStartLocation.isSome = true ∧
        s.selectedEndLocation.isSome = true)) := by
  obtain ⟨fd, sl, el, ld⟩ := s
  refine ⟨fun _ _ => rfl, ?_⟩
  cases sl <;> cases el <;> cases ld <;> simp [swapDisabled]

/-- C7 witness: the theorem applied to a concrete form state with both
endpoints selected and no request in flight. -/
theorem swapLocations_involution_gating_witness :
    swapLocations (swapLocations formStateBoth) = formStateBoth ∧
    swapDisabled formStateBoth = false :=
  ⟨(swapLocations_involution_gating formStateBoth).1 rfl rfl,
   ((swapLocations_involution_gating formStateBoth).2).mpr (by decide)⟩

/-! Section: C8: selector exclusion and the current-location flag -/

/-- C8: the catalog location chosen as one endpoint is excluded from the other
selector's offered list, and the current-location entry is governed by the
`allowCurrentLocation` prop, which `RouteForm` sets to `true` for the start
selector and `false` for the destination selector. -/
theorem selector_excludes_other_endpoint (catalog : List Location)
    (s : RouteFormState) :
    (∀ e, s.selectedEndLocation = some e →
      ∀ l ∈ selectorLocations catalog (startSelectorProps s), l.id ≠ e.id) ∧
    (∀ st, s.selectedStartLocation = some st →
      ∀ l ∈ selectorLocations catalog (endSelectorProps s), l.id ≠ st.id) ∧
    currentLocationOffered (startSelectorProps s) = true ∧
    currentLocationOffered (endSelectorProps s) = false := by
  refine ⟨?_, ?_, rfl, rfl⟩
  · intro e he l hl hid
    simp only [selectorLocations] at hl
    rcases List.mem_filter.mp hl with ⟨-, hcond⟩
    simp [startSelectorProps, he, hid] at hcond
  · intro st hst l hl hid
    simp only [selectorLocations] at hl
    rcases List.mem_filter.mp hl with ⟨-, hcond⟩
    simp [endSelectorProps, hst, hid] at hcond

/-- C8 witness: on a two-entry catalog with the library chosen as start and
the hostel as destination, the theorem yields the id exclusions and the two
current-location flags. -/
theorem selector_excludes_other_endpoint_witness :
    locLibrary.id ≠ locHostel.id ∧
    locHostel.id ≠ locLibrary.id ∧
    currentLocationOffered (startSelectorProps formStateBoth) = true ∧
    currentLocationOffered (endSelectorProps formStateBoth) = false :=
  ⟨(selector_excludes_other_endpoint catalog2 formStateBoth).1 locHostel rfl
      locLibrary (by decide),
   (selector_excludes_other_endpoint catalog2 formStateBoth).2.1 locLibrary rfl
      locHostel (by decide),
   (selector_excludes_other_endpoint catalog2 formStateBoth).2.2.1,
   (selector_excludes_other_endpoint catalog2 formStateBoth).2.2.2⟩

/-! Section: C10: map clicks update only the pending endpoint -/

/-- C10: a map click updates only the pending endpoint's latitude and
longitude, leaves the other endpoint's coordinates (and the rest of the
state) unchanged — with no coordinate change at all when no endpoint is
pending — and always resets the pending-endpoint flag to `null`. -/
theorem handleMapClick_updates_only_pending_endpoint (s : HomeState)
    (lat lng : ℚ) :
    (handleMapClick lat lng s).selectedLocation = none ∧
    (s.selectedLocation = some EndpointSel.start →
      (handleMapClick lat lng s).coordinates =
        { s.coordinates with startLat := lat, startLng := lng }) ∧
    (s.selectedLocation = some EndpointSel.«end» →
      (handleMapClick lat lng s).coordinates =
        { s.coordinates with endLat := lat, endLng := lng }) ∧
    (s.selectedLocation = none →
      (handleMapClick lat lng s).coordinates = s.coordinates) ∧
    (handleMapClick lat lng s).route = s.route ∧
    (handleMapClick lat lng s).error = s.error ∧
    (handleMapClick lat lng s).loading = s.loading := by
  obtain ⟨route, loading, error, sel, coords⟩ := s
  rcases sel with _ | ep
  · simp [handleMapClick]
  · cases ep <;> simp [handleMapClick]

/-- C10 witness: the theorem applied with the start endpoint pending: only the
start coordinates move to the clicked point and the flag is reset. -/
theorem handleMapClick_updates_only_pending_endpoint_witness :
    (handleMapClick 30 79 homeStatePendingStart).coordinates =
      { homeCoords0 with startLat := 30, startLng := 79 } ∧
    (handleMapClick 30 79 homeStatePendingStart).selectedLocation = none :=
  ⟨(handleMapClick_updates_only_pending_endpoint homeStatePendingStart 30 79).2.1
      rfl,
   (handleMapClick_updates_only_pending_endpoint homeStatePendingStart 30 79).1⟩

end CampusMap
